import Mathlib

/-!
Verification of the flight-confirmation email pipeline
(`src/flight_processor`): classifier, multi-strategy parser,
deduplicator and processing-state machine, shallowly embedded in Lean.

Modelling conventions:
* HTML bodies are modelled as the structure the code observes through
  BeautifulSoup (parsed JSON-LD scripts, the first FlightReservation
  microdata div, tables with their rows and visible text, and the
  flattened text), since BeautifulSoup itself is an external library.
* Python strings are Lean `String`; `upper` / `lower` / `strip` are
  modelled over ASCII (`pyUpper`, `pyLower`, `String.trim`); non-ASCII
  case mapping and Unicode word characters are not modelled, and JSON
  leaf values at extracted positions are modelled as JSON strings.
* `fuzzywuzzy.fuzz.ratio` is an external library and is modelled as an
  uninterpreted function carried by the `Deduplicator` structure.
* Falsy Python values (`None` and the empty string) are modelled as
  `Option String` with `none` for `None`.
-/

namespace FlightProc

/-- Python `str.upper()` restricted to ASCII: uppercase every character. -/
def pyUpper (s : String) : String := ⟨s.data.map Char.toUpper⟩

/-- Python `str.lower()` restricted to ASCII: lowercase every character. -/
def pyLower (s : String) : String := ⟨s.data.map Char.toLower⟩

/-- Python `str.strip()` over ASCII whitespace: drop leading and
trailing whitespace characters. -/
def pyStrip (s : String) : String :=
  ⟨((s.data.dropWhile (fun c => c.isWhitespace)).reverse.dropWhile
      (fun c => c.isWhitespace)).reverse⟩

/-- Character-list prefix test under an arbitrary character comparison. -/
def prefixMatch (eqc : Char → Char → Bool) : List Char → List Char → Bool
  | [], _ => true
  | _ :: _, [] => false
  | a :: as, b :: bs => eqc a b && prefixMatch eqc as bs

/-- Case-sensitive prefix test on character lists. -/
def prefixEq (pat l : List Char) : Bool := prefixMatch (fun a b => a == b) pat l

/-- Case-insensitive (ASCII) prefix test on character lists. -/
def prefixCI (pat l : List Char) : Bool :=
  prefixMatch (fun a b => a.toLower == b.toLower) pat l

/-- Substring search on character lists, the semantics of the Python
`in` operator on strings (case-sensitive). -/
def subAux (pat : List Char) : List Char → Bool
  | [] => pat.isEmpty
  | c :: t => prefixEq pat (c :: t) || subAux pat t

/-- Python `pat in s` for strings. -/
def strContains (s pat : String) : Bool := subAux pat.data s.data

/-- Case-insensitive substring search, the semantics of searching for a
literal pattern with `re.IGNORECASE`. -/
def subCIAux (pat : List Char) : List Char → Bool
  | [] => pat.isEmpty
  | c :: t => prefixCI pat (c :: t) || subCIAux pat t

/-- Case-insensitive occurrence of a literal pattern in a string. -/
def strContainsCI (s pat : String) : Bool := subCIAux pat.data s.data

/-- ASCII uppercase letter, the regex class `[A-Z]` without IGNORECASE. -/
def isUpperCh (c : Char) : Bool := 'A' ≤ c && c ≤ 'Z'

/-- ASCII decimal digit, the regex class `\d` over ASCII. -/
def isDigitCh (c : Char) : Bool := '0' ≤ c && c ≤ '9'

/-- ASCII lowercase letter. -/
def isLowerCh (c : Char) : Bool := 'a' ≤ c && c ≤ 'z'

/-- The regex class `[A-Z0-9]` without IGNORECASE. -/
def isUpAlnum (c : Char) : Bool := isUpperCh c || isDigitCh c

/-- The regex class `[A-Z0-9]` under IGNORECASE: any ASCII letter or digit. -/
def isAlnumCI (c : Char) : Bool := isUpperCh c || isLowerCh c || isDigitCh c

/-- Python regex word character `\w`, restricted to ASCII. -/
def isWordCh (c : Char) : Bool := isUpperCh c || isLowerCh c || isDigitCh c || c == '_'

/-- Python regex whitespace class `\s` over ASCII. -/
def isSpaceCh (c : Char) : Bool :=
  c == ' ' || c == '\t' || c == '\n' || c == '\r' || c == '\x0b' || c == '\x0c'

/-- A word boundary `\b` holds at the start of a match when the
preceding character (tracked by the scanners) is absent or not a word
character. -/
def boundaryBefore : Option Char → Bool
  | none => true
  | some c => !isWordCh c

/-- A word boundary `\b` holds after a match when the remaining input is
empty or starts with a non-word character. -/
def boundaryAfter : List Char → Bool
  | [] => true
  | c :: _ => !isWordCh c

/-- JSON values as produced by `json.loads`, restricted to the shapes
the code inspects: objects (with the distinct keys of a parsed dict),
arrays and strings. -/
inductive Json where
  | str : String → Json
  | arr : List Json → Json
  | obj : List (String × Json) → Json

/-- Python `d.get(k)` on a parsed JSON object; `none` on non-objects. -/
def Json.lookup : Json → String → Option Json
  | .obj kvs, k => kvs.lookup k
  | _, _ => none

/-- Python `j == lit` for a string literal `lit`: true exactly when the
value is that string. -/
def Json.isStrEq (j : Json) (s : String) : Bool :=
  match j with
  | .str t => t == s
  | _ => false

/-- Python `d.get(k) == lit` for a string literal: `none` unless the key
is present with a string value. -/
def Json.lookupStr (j : Json) (k : String) : Option String :=
  match j.lookup k with
  | some (.str s) => some s
  | _ => none

/-- The line `items = [json_data] if isinstance(json_data, dict) else
json_data` followed by skipping non-dict items: a dict is a singleton, a
list contributes its elements, and iterating a string yields characters,
none of which is a dict. -/
def Json.asItems : Json → List Json
  | .obj kvs => [.obj kvs]
  | .arr xs => xs
  | .str _ => []

/-- Python `"Confirmed" in status` for a JSON value: substring test on
strings, element membership on lists, key membership on dicts. -/
def Json.hasConfirmed : Json → Bool
  | .str s => strContains s "Confirmed"
  | .arr xs => xs.any (fun j => j.isStrEq "Confirmed")
  | .obj kvs => (kvs.lookup "Confirmed").isSome

/-- A `div` with `itemtype=http://schema.org/Flight` inside the
microdata reservation: the `content` attributes of its `flightNumber`
meta and of the `iataCode` meta of each nested Airport div (`none` when
the meta tag or its content attribute is missing). -/
structure MicroFlight where
  flightNumber : Option String
  airportCodes : List (Option String)
deriving DecidableEq

/-- The first `div` with `itemtype=http://schema.org/FlightReservation`
in the body. `reservationStatus` is carried by the markup but never read
by the code. -/
structure MicroReservation where
  reservationNumber : Option String
  reservationStatus : Option String
  flight : Option MicroFlight
deriving DecidableEq

/-- An HTML table as the code reads it: the `td`/`th` cell texts of each
`tr` row, and the visible text of the whole table. -/
structure HtmlTable where
  rows : List (List String)
  text : String
deriving DecidableEq

/-- A non-empty HTML body as observed through BeautifulSoup: the parse
result of each `application/ld+json` script (`none` when the script has
no string content or `json.loads` raises), the first FlightReservation
microdata div, all tables, and `soup.get_text()`. -/
structure Html where
  ldScripts : List (Option Json)
  microReservation : Option MicroReservation
  tables : List HtmlTable
  text : String

/-- The `email_data` dict built by `extract_email_content` in `main.py`.
`html_content` is `none` when the HTML body is the empty string (falsy). -/
structure EmailData where
  message_id : String
  thread_id : Option String
  subject : String
  from_email : String
  msg_date : String
  html_content : Option Html
  text_content : String

/-! ### Classifier (`parsers/classifier.py`) -/

/-- A match of `[A-Z0-9]{6}\b` starting exactly here. -/
def trySixAt (l : List Char) : Bool :=
  (l.take 6).length == 6 && (l.take 6).all isUpAlnum && boundaryAfter (l.drop 6)

/-- Search for `\b[A-Z0-9]{6}\b` (the confirmation-code marker),
scanning start positions left to right with the previous character
tracked for the leading word boundary. -/
def scanSix (prev : Option Char) : List Char → Bool
  | [] => false
  | c :: t => (boundaryBefore prev && trySixAt (c :: t)) || scanSix (some c) t

/-- A match of `[A-Z]{2}\d{1,4}\b` starting exactly here. The regex
quantifier is greedy with backtracking, but after fewer than the whole
digit run the next character is a digit, hence a word character, so the
trailing boundary can only hold after the full run; the run must
therefore have length 1 to 4. -/
def tryFlightMarkAt : List Char → Bool
  | c1 :: c2 :: rest =>
    isUpperCh c1 && isUpperCh c2 &&
      (let r := (rest.takeWhile isDigitCh).length
       decide (1 ≤ r) && decide (r ≤ 4) && boundaryAfter (rest.drop r))
  | _ => false

/-- Search for `\b[A-Z]{2}\d{1,4}\b` (the flight-number marker). -/
def scanFlightMark (prev : Option Char) : List Char → Bool
  | [] => false
  | c :: t => (boundaryBefore prev && tryFlightMarkAt (c :: t)) || scanFlightMark (some c) t

/-- All matches of `re.findall` for `\b([A-Z]{3})\b`, left to right and
non-overlapping: after a match the scan resumes past its three letters. -/
def scanCodes3 (prev : Option Char) : List Char → List String
  | c1 :: c2 :: c3 :: t =>
    if boundaryBefore prev && isUpperCh c1 && isUpperCh c2 && isUpperCh c3 &&
        boundaryAfter t then
      (⟨[c1, c2, c3]⟩ : String) :: scanCodes3 (some c3) t
    else
      scanCodes3 (some c1) (c2 :: c3 :: t)
  | _ => []

/-- A match of `[A-Z0-9]{5,6}` under IGNORECASE starting exactly here:
five consecutive ASCII alphanumerics suffice for existence. -/
def fiveAlnumCIAt (l : List Char) : Bool :=
  (l.take 5).length == 5 && (l.take 5).all isAlnumCI

/-- The tail `.{0,20}([A-Z0-9]{5,6})` of the booking-reference marker:
at most `n` non-newline gap characters, then five alphanumerics. -/
def gapThenFive : Nat → List Char → Bool
  | n, l =>
    fiveAlnumCIAt l ||
      match n, l with
      | Nat.succ m, c :: t => c != '\n' && gapThenFive m t
      | _, _ => false

/-- The rest of the input after the first keyword of `kws` that is a
case-insensitive prefix here; the alternations modelled this way all
have alternatives with pairwise distinct first letters, so at most one
can match at a position. -/
def kwAfterCI (kws : List String) (l : List Char) : Option (List Char) :=
  match kws with
  | [] => none
  | k :: ks => if prefixCI k.data l then some (l.drop k.data.length) else kwAfterCI ks l

/-- Search for `(?i)(confirmation|booking|reservation|pnr).{0,20}([A-Z0-9]{5,6})`
(the labeled booking-reference marker). -/
def scanBookingMark : List Char → Bool
  | [] => false
  | l@(_ :: t) =>
    (match kwAfterCI ["confirmation", "booking", "reservation", "pnr"] l with
     | some rest => gapThenFive 20 rest
     | none => false) || scanBookingMark t

/-- The `has_flight_markers` content check: at least 3 of the 4 textual
markers are present in the given text. -/
def has_flight_markers (t : String) : Bool :=
  let cs := t.data
  let m1 : Nat := cond (scanSix none cs) 1 0
  let m2 : Nat := cond (scanFlightMark none cs) 1 0
  let m3 : Nat := cond (decide (2 ≤ (scanCodes3 none cs).length)) 1 0
  let m4 : Nat := cond (scanBookingMark cs) 1 0
  decide (3 ≤ m1 + m2 + m3 + m4)

/-- The tail `.*B` of a confirmation pattern: any number of non-newline
characters, then one of the literals `bs` (case-insensitively). -/
def dotStarThenCI (bs : List String) : List Char → Bool
  | [] => bs.any (fun b => prefixCI b.data [])
  | l@(c :: t) => bs.any (fun b => prefixCI b.data l) || (c != '\n' && dotStarThenCI bs t)

/-- Search semantics of an `(?i)A.*B` pattern where `A` and `B` are
families of literal alternatives: some alternative of `A` matches at
some position, followed (with no intervening newline) by some
alternative of `B`. -/
def seqSearchCI (as bs : List String) : List Char → Bool
  | [] => false
  | l@(_ :: t) =>
    (match kwAfterCI as l with
     | some rest => dotStarThenCI bs rest
     | none => false) || seqSearchCI as bs t

/-- The `CONFIRMATION_PATTERNS` family: the subject matches one of the
four confirmation regexes. -/
def hasConfirmPattern (s : String) : Bool :=
  seqSearchCI ["flight", "booking", "reservation"] ["confirmed", "confirmation"] s.data ||
  seqSearchCI ["confirm"] ["flight"] s.data ||
  seqSearchCI ["itinerary"] ["confirm"] s.data ||
  seqSearchCI ["booking"] ["confirm"] s.data

/-- A match of `(?i)check[\s-]*in` starting exactly here, after the
literal `check`: any run of whitespace or hyphens, then `in`. -/
def inAfterGap : List Char → Bool
  | [] => false
  | l@(c :: t) => prefixCI ['i', 'n'] l || ((isSpaceCh c || c == '-') && inAfterGap t)

/-- Search for `(?i)check[\s-]*in`. -/
def scanCheckIn : List Char → Bool
  | [] => false
  | l@(_ :: t) =>
    (if prefixCI ['c', 'h', 'e', 'c', 'k'] l then inAfterGap (l.drop 5) else false) ||
      scanCheckIn t

/-- The `EXCLUSION_PATTERNS` family: cancel, check-in, change, update,
modif, reminder, expired, all case-insensitive. -/
def hasExclusionPattern (s : String) : Bool :=
  strContainsCI s "cancel" || scanCheckIn s.data || strContainsCI s "change" ||
  strContainsCI s "update" || strContainsCI s "modif" || strContainsCI s "reminder" ||
  strContainsCI s "expired"

/-- `FlightClassifier.is_confirmation_subject`: a confirmation pattern
matches and no exclusion pattern matches. -/
def is_confirmation_subject (s : String) : Bool :=
  hasConfirmPattern s && !hasExclusionPattern s

/-- The `AIRLINE_DOMAINS` allow-list. -/
def AIRLINE_DOMAINS : List String :=
  ["united.com", "delta.com", "aa.com", "americanairlines.com",
   "southwest.com", "luv.southwest.com", "jetblue.com",
   "alaskaair.com", "spirit.com", "frontier.com",
   "expedia.com", "welcomemail.expedia.com", "kayak.com", "priceline.com"]

/-- `FlightClassifier.is_airline_domain`: some listed domain occurs in
the lowercased sender address. -/
def is_airline_domain (from_email : String) : Bool :=
  AIRLINE_DOMAINS.any (fun d => strContains (pyLower from_email) d)

/-- One parsed `application/ld+json` script as inspected by
`has_flight_reservation_schema`: a dict declaring type FlightReservation
with status containing Confirmed, or a list holding such a dict. -/
def frConfirmed (j : Json) : Bool :=
  (j.lookupStr "@type" == some "FlightReservation") &&
    (match j.lookup "reservationStatus" with
     | some v => v.hasConfirmed
     | none => false)

/-- Whether a script fires the JSON-LD branch of the structured-markup
check (`none` models a script without string content or a
`json.JSONDecodeError`, both skipped). -/
def ldScriptConfirmed : Option Json → Bool
  | none => false
  | some (.obj kvs) => frConfirmed (.obj kvs)
  | some (.arr xs) => xs.any (fun it => match it with | .obj _ => frConfirmed it | _ => false)
  | some (.str _) => false

/-- `FlightClassifier.has_flight_reservation_schema`: a JSON-LD script
declares a Confirmed FlightReservation, or a FlightReservation microdata
div is present (the microdata branch performs no status check). -/
def has_flight_reservation_schema (h : Html) : Bool :=
  h.ldScripts.any ldScriptConfirmed || h.microReservation.isSome

/-- Stated from the specification, for comparison with the code: a
parsed JSON-LD script declares type FlightReservation with a reservation
status containing Confirmed. -/
def specLdConfirmed : Option Json → Bool
  | none => false
  | some j =>
    j.asItems.any (fun it =>
      it.lookupStr "@type" == some "FlightReservation" &&
        (match it.lookup "reservationStatus" with
         | some v => v.hasConfirmed
         | none => false))

/-- Stated from the specification, for comparison with the code: the
body contains machine-readable reservation markup, in JSON-LD or
microdata form, declaring type FlightReservation with a status
containing Confirmed. -/
def spec_confirmed_markup (h : Html) : Bool :=
  h.ldScripts.any specLdConfirmed ||
    (match h.microReservation with
     | some m =>
       match m.reservationStatus with
       | some s => strContains s "Confirmed"
       | none => false
     | none => false)

/-- The structured-markup signal of `classify` (weight 50), guarded by
the truthiness of the HTML body. -/
def schemaScore (e : EmailData) : Nat :=
  if (match e.html_content with
      | some h => has_flight_reservation_schema h
      | none => false) then 50 else 0

/-- The sender-domain signal of `classify` (weight 20). -/
def domainScore (e : EmailData) : Nat := if is_airline_domain e.from_email then 20 else 0

/-- The subject-pattern signal of `classify` (weight 20). -/
def subjectScore (e : EmailData) : Nat := if is_confirmation_subject e.subject then 20 else 0

/-- The content-marker signal of `classify` (weight 10), applied to
subject and plain text joined by a space. -/
def markerScore (e : EmailData) : Nat :=
  if has_flight_markers (e.subject ++ " " ++ e.text_content) then 10 else 0

/-- `FlightClassifier.classify`: accumulate the four signals and decide
at threshold 50. -/
def classify (e : EmailData) : Bool × Nat :=
  let score := schemaScore e + domainScore e + subjectScore e + markerScore e
  (decide (50 ≤ score), score)

/-! ### Parser (`parsers/flight_parser.py`) -/

/-- The `data` dict a parsing strategy builds: each key is absent until
assigned. Dict insertion order is not modelled; no claim depends on it. -/
structure FlightData where
  booking_reference : Option String := none
  flight_number : Option String := none
  departure_airport : Option String := none
  arrival_airport : Option String := none
  departure_time : Option String := none
  arrival_time : Option String := none
deriving DecidableEq

/-- Python truthiness of the `data` dict: some key has been assigned. -/
def FlightData.nonempty (d : FlightData) : Bool :=
  d.booking_reference.isSome || d.flight_number.isSome || d.departure_airport.isSome ||
    d.arrival_airport.isSome || d.departure_time.isSome || d.arrival_time.isSome

/-- The nested-flight part of the JSON-LD extraction: flight number,
airport IATA codes (only when the airport value is a dict with the key),
and the two timestamps. JSON values at these positions are modelled as
strings. -/
def addFlightFields (d : FlightData) (fl : Json) : FlightData :=
  let d1 := match fl.lookupStr "flightNumber" with
            | some s => { d with flight_number := some s }
            | none => d
  let d2 := match (fl.lookup "departureAirport").getD (.obj []) with
            | .obj kvs => match (Json.obj kvs).lookupStr "iataCode" with
                          | some s => { d1 with departure_airport := some s }
                          | none => d1
            | _ => d1
  let d3 := match (fl.lookup "arrivalAirport").getD (.obj []) with
            | .obj kvs => match (Json.obj kvs).lookupStr "iataCode" with
                          | some s => { d2 with arrival_airport := some s }
                          | none => d2
            | _ => d2
  let d4 := match fl.lookupStr "departureTime" with
            | some s => { d3 with departure_time := some s }
            | none => d3
  match fl.lookupStr "arrivalTime" with
  | some s => { d4 with arrival_time := some s }
  | none => d4

/-- The body of the JSON-LD item loop for one FlightReservation item:
take the reservation number, then the nested flight fields when
`reservationFor` is a dict of type Flight. A `reservationFor` value that
is a string or list would raise `AttributeError` in `flight.get`, which
the code catches by skipping to the next script. -/
inductive ItemStep where
  | ret (d : FlightData)
  | cont (d : FlightData)

/-- The loop over the items of one parsed JSON-LD script, threading the
`data` dict; returns as soon as the dict is non-empty after an item. -/
def itemLoop (d : FlightData) : List Json → ItemStep
  | [] => .cont d
  | item :: rest =>
    match item with
    | .obj kvs =>
      if (Json.obj kvs).lookupStr "@type" == some "FlightReservation" then
        let d1 := match (Json.obj kvs).lookupStr "reservationNumber" with
                  | some s => { d with booking_reference := some s }
                  | none => d
        match ((Json.obj kvs).lookup "reservationFor").getD (.obj []) with
        | .obj fkvs =>
          let d2 := if (Json.obj fkvs).lookupStr "@type" == some "Flight" then
                      addFlightFields d1 (.obj fkvs)
                    else d1
          if d2.nonempty then .ret d2 else itemLoop d2 rest
        | _ => .cont d1
      else itemLoop d rest
    | _ => itemLoop d rest

/-- The loop over all `application/ld+json` scripts, carrying the `data`
dict across scripts (it is initialised once, before the loop). -/
def scriptsLoop (d : FlightData) : List (Option Json) → ItemStep
  | [] => .cont d
  | s :: rest =>
    match s with
    | none => scriptsLoop d rest
    | some j =>
      match itemLoop d j.asItems with
      | .ret d2 => .ret d2
      | .cont d2 => scriptsLoop d2 rest

/-- The microdata section of `parse_schema_org`: fields are taken only
when the meta tag exists and its `content` attribute is truthy. -/
def microExtract (d : FlightData) (m : MicroReservation) : FlightData :=
  let d1 := match m.reservationNumber with
            | some c => if c != "" then { d with booking_reference := some c } else d
            | none => d
  match m.flight with
  | none => d1
  | some fl =>
    let d2 := match fl.flightNumber with
              | some c => if c != "" then { d1 with flight_number := some c } else d1
              | none => d1
    if 2 ≤ fl.airportCodes.length then
      let d3 := match fl.airportCodes.getD 0 none with
                | some c => if c != "" then { d2 with departure_airport := some c } else d2
                | none => d2
      match fl.airportCodes.getD 1 none with
      | some c => if c != "" then { d3 with arrival_airport := some c } else d3
      | none => d3
    else d2

/-- `FlightParser.parse_schema_org`: JSON-LD scripts first (with early
return on the first item that yields any field), then the microdata div,
returning the dict only if non-empty. -/
def parse_schema_org (h : Html) : Option FlightData :=
  match scriptsLoop {} h.ldScripts with
  | .ret d => some d
  | .cont d =>
    let d2 := match h.microReservation with
              | some m => microExtract d m
              | none => d
    if d2.nonempty then some d2 else none

/-- First match of `re.search` for `\b([A-Z]{3})\b`, used on table cell
values to pull an airport code. -/
def findCode3 (s : String) : Option String :=
  match scanCodes3 none s.data with
  | c :: _ => some c
  | [] => none

/-- One `(label, value)` row of the selected table: the elif chain of
`parse_html_table`, on the stripped lowercased label and stripped value. -/
def rowStep (d : FlightData) (row : List String) : FlightData :=
  match row with
  | k0 :: v0 :: _ =>
    let key := pyLower (pyStrip k0)
    let value := pyStrip v0
    if (strContains key "booking" || strContains key "confirmation" ||
        strContains key "pnr") && 5 ≤ value.length then
      { d with booking_reference := some value }
    else if strContains key "flight" && strContains key "number" then
      { d with flight_number := some value }
    else if strContains key "departure" then
      (if strContains key "airport" || strContains key "from" then
        match findCode3 value with
        | some c => { d with departure_airport := some c }
        | none => d
      else d)
    else if strContains key "arrival" || strContains key "destination" then
      (if strContains key "airport" || strContains key "to" then
        match findCode3 value with
        | some c => { d with arrival_airport := some c }
        | none => d
      else d)
    else d
  | _ => d

/-- The keyword gate on a table: its visible text, lowercased, contains
one of flight, booking, departure, arrival. -/
def tableHasKeyword (t : HtmlTable) : Bool :=
  ["flight", "booking", "departure", "arrival"].any
    (fun k => strContains (pyLower t.text) k)

/-- The `(label, value)` walk over a keyword-selected table. -/
def tableExtract (t : HtmlTable) : FlightData := t.rows.foldl rowStep {}

/-- The table loop of `parse_html_table`: a keyword-matching table whose
walk assigns no field does not return; the loop continues with the
remaining tables. -/
def tablesLoop : List HtmlTable → Option FlightData
  | [] => none
  | t :: rest =>
    if tableHasKeyword t then
      let d := tableExtract t
      if d.nonempty then some d else tablesLoop rest
    else tablesLoop rest

/-- `FlightParser.parse_html_table`. -/
def parse_html_table (h : Html) : Option FlightData := tablesLoop h.tables

/-- What one table contributes on its own: its extracted fields when it
passes the keyword gate and the walk assigns at least one field,
otherwise nothing. Used to characterise the table loop. -/
def tableData (t : HtmlTable) : Option FlightData :=
  if tableHasKeyword t then
    let d := tableExtract t
    if d.nonempty then some d else none
  else none

/-- Python `s.replace(' ', '')`: remove every space character. -/
def pyRemoveSpaces (s : String) : String := ⟨s.data.filter (fun c => c != ' ')⟩

/-- The separator `[:\s]+` of the booking-reference pattern: one
separator character, then greedily the rest of the run. The separator
class and the following `[A-Z0-9]` class are disjoint, so greedy
matching needs no backtracking. -/
def consumeSeps (l : List Char) : Option (List Char) :=
  match l with
  | c :: t =>
    if c == ':' || isSpaceCh c then some (t.dropWhile (fun c2 => c2 == ':' || isSpaceCh c2))
    else none
  | [] => none

/-- Greedy take of at most `n` characters satisfying `p`. -/
def takeWhileUpTo (p : Char → Bool) : Nat → List Char → List Char
  | 0, _ => []
  | _ + 1, [] => []
  | n + 1, c :: t => if p c then c :: takeWhileUpTo p n t else []

/-- A match of the booking-reference pattern
`(?:booking|confirmation|reference|pnr)[:\s]+([A-Z0-9]{5,7})` under
IGNORECASE starting exactly here, returning the captured group. -/
def tryBookingRefAt (l : List Char) : Option (List Char) :=
  match kwAfterCI ["booking", "confirmation", "reference", "pnr"] l with
  | some rest =>
    match consumeSeps rest with
    | some rest2 =>
      let cap := takeWhileUpTo isAlnumCI 7 rest2
      if 5 ≤ cap.length then some cap else none
    | none => none
  | none => none

/-- `re.search` for the booking-reference pattern: leftmost match wins. -/
def scanBookingRef : List Char → Option (List Char)
  | [] => none
  | l@(_ :: t) =>
    match tryBookingRefAt l with
    | some cap => some cap
    | none => scanBookingRef t

/-- The `\d{3,4}\b` tail of the flight-number pattern: greedily four
digits, backtracking to three, each followed by a word boundary. -/
def tryDigits34 (l : List Char) : Option (List Char) :=
  let r := (l.takeWhile isDigitCh).length
  if 4 ≤ r && boundaryAfter (l.drop 4) then some (l.take 4)
  else if 3 ≤ r && boundaryAfter (l.drop 3) then some (l.take 3)
  else none

/-- A match of `[A-Z]{2}\s?\d{3,4}\b` starting exactly here, returning
the captured group (which may include the optional whitespace
character). When the optional `\s` is taken but no digits follow, the
empty alternative of `\s?` also fails, since the whitespace character is
not a digit. -/
def tryFlightNumAt : List Char → Option (List Char)
  | c1 :: c2 :: rest =>
    if isUpperCh c1 && isUpperCh c2 then
      match rest with
      | c3 :: rest2 =>
        if isSpaceCh c3 then
          match tryDigits34 rest2 with
          | some ds => some (c1 :: c2 :: c3 :: ds)
          | none => none
        else
          match tryDigits34 rest with
          | some ds => some (c1 :: c2 :: ds)
          | none => none
      | [] => none
    else none
  | _ => none

/-- `re.search` for `\b([A-Z]{2}\s?\d{3,4})\b`. -/
def scanFlightNum (prev : Option Char) : List Char → Option (List Char)
  | [] => none
  | c :: t =>
    match (if boundaryBefore prev then tryFlightNumAt (c :: t) else none) with
    | some cap => some cap
    | none => scanFlightNum (some c) t

/-- The separator alternation `(?:to|→|-|–)` of the airport-pair
pattern (case-sensitive). -/
def sepTokenAfter (l : List Char) : Option (List Char) :=
  if prefixEq ['t', 'o'] l then some (l.drop 2)
  else if prefixEq ['→'] l then some (l.drop 1)
  else if prefixEq ['-'] l then some (l.drop 1)
  else if prefixEq ['–'] l then some (l.drop 1)
  else none

/-- A match of `[A-Z]{3}\s*(?:to|→|-|–)\s*([A-Z]{3})\b` starting
exactly here. No separator alternative starts with whitespace, so the
greedy `\s*` needs no backtracking. -/
def tryAirportPairAt : List Char → Option (String × String)
  | c1 :: c2 :: c3 :: rest =>
    if isUpperCh c1 && isUpperCh c2 && isUpperCh c3 then
      match sepTokenAfter (rest.dropWhile isSpaceCh) with
      | some rest2 =>
        match rest2.dropWhile isSpaceCh with
        | d1 :: d2 :: d3 :: rest4 =>
          if isUpperCh d1 && isUpperCh d2 && isUpperCh d3 && boundaryAfter rest4 then
            some (⟨[c1, c2, c3]⟩, ⟨[d1, d2, d3]⟩)
          else none
        | _ => none
      | none => none
    else none
  | _ => none

/-- `re.search` for the airport-pair pattern. -/
def scanAirportPair (prev : Option Char) : List Char → Option (String × String)
  | [] => none
  | c :: t =>
    match (if boundaryBefore prev then tryAirportPairAt (c :: t) else none) with
    | some p => some p
    | none => scanAirportPair (some c) t

/-- The stoplist of common words excluded from the all-codes fallback. -/
def STOP_CODES : List String := ["THE", "AND", "FOR", "YOU", "NOT", "ARE", "WAS", "BUT"]

/-- `FlightParser.extract_flight_info_regex`: booking reference by
keyword proximity (upper-cased), flight number (spaces removed), the
explicit airport pair, and otherwise the first two 3-letter codes not in
the stoplist. -/
def extract_flight_info_regex (text : String) : Option FlightData :=
  let cs := text.data
  let d0 : FlightData := {}
  let d1 := match scanBookingRef cs with
            | some cap => { d0 with booking_reference := some (pyUpper ⟨cap⟩) }
            | none => d0
  let d2 := match scanFlightNum none cs with
            | some cap => { d1 with flight_number := some (pyRemoveSpaces ⟨cap⟩) }
            | none => d1
  let d3 := match scanAirportPair none cs with
            | some ab => { d2 with departure_airport := some ab.1, arrival_airport := some ab.2 }
            | none => d2
  let d4 := if d3.departure_airport.isNone then
              match (scanCodes3 none cs).filter (fun c => !STOP_CODES.contains c) with
              | a :: b :: _ => { d3 with departure_airport := some a, arrival_airport := some b }
              | _ => d3
            else d3
  if d4.nonempty then some d4 else none

/-- `FlightParser.parse`: the strategy cascade. Strategies one and two
run only on a truthy HTML body; strategy three runs on the flattened
HTML text joined to the plain text. Every internal failure of a strategy
is modelled by its returning nothing. -/
def FlightParser.parse (e : EmailData) : Option FlightData :=
  match e.html_content with
  | some h =>
    match parse_schema_org h with
    | some d => some d
    | none =>
      match parse_html_table h with
      | some d => some d
      | none => extract_flight_info_regex (h.text ++ " " ++ e.text_content)
  | none => extract_flight_info_regex e.text_content

/-! ### Deduplicator (`dedup/deduplicator.py`) -/

/-- The deduplicator: `fuzz.ratio` is an external library modelled as an
uninterpreted similarity function with values in 0..100. -/
structure Deduplicator where
  ratio : String → String → Nat
  fuzzy_threshold : Nat

/-- Python truthiness of an optional string. -/
def truthyStr : Option String → Bool
  | none => false
  | some s => s != ""

/-- `Deduplicator.are_pnrs_duplicate`: false when either side is falsy,
true on case-normalized equality, otherwise the fuzzy ratio against the
threshold. -/
def are_pnrs_duplicate (dd : Deduplicator) (p1 p2 : Option String) : Bool :=
  if !truthyStr p1 || !truthyStr p2 then false
  else
    let s1 := p1.getD ""
    let s2 := p2.getD ""
    if pyUpper s1 == pyUpper s2 then true
    else decide (dd.fuzzy_threshold ≤ dd.ratio (pyUpper s1) (pyUpper s2))

/-- A record as the deduplicator sees it: the `message_id` and `pnr`
entries of an email dict. -/
structure DRec where
  message_id : Option String
  pnr : Option String
deriving DecidableEq

/-- The state of the `find_duplicates` loop: `processed` models the
insertion-ordered `processed_pnrs` dict, `dupOrder` the key insertion
order of the `duplicates` dict, whose value lists alias the
`processed_pnrs` lists. -/
structure DedupAcc where
  processed : List (String × List (Option String))
  dupOrder : List String

/-- The linear scan over already-processed canonical PNRs: first match
wins. -/
def firstMatchKey (dd : Deduplicator) (pu : String) :
    List (String × List (Option String)) → Option String
  | [] => none
  | (k, _) :: rest =>
    if are_pnrs_duplicate dd (some pu) (some k) then some k else firstMatchKey dd pu rest

/-- Append a message id to the list of the given canonical PNR
(`msg_ids.append(...)` through the shared list object). -/
def appendToKey (mid : Option String) (k : String) :
    List (String × List (Option String)) → List (String × List (Option String))
  | [] => []
  | (k2, ids) :: rest =>
    if k2 == k then (k2, ids ++ [mid]) :: rest else (k2, ids) :: appendToKey mid k rest

/-- One iteration of the `find_duplicates` loop. -/
def fdStep (dd : Deduplicator) (st : DedupAcc) (e : DRec) : DedupAcc :=
  match e.pnr with
  | none => st
  | some p =>
    if p == "" then st
    else
      let pu := pyUpper p
      match firstMatchKey dd pu st.processed with
      | some k =>
        { processed := appendToKey e.message_id k st.processed,
          dupOrder := if st.dupOrder.contains k then st.dupOrder else st.dupOrder ++ [k] }
      | none => { st with processed := st.processed ++ [(pu, [e.message_id])] }

/-- `Deduplicator.find_duplicates`: run the loop, read each duplicate
group through its final (aliased) list, and keep groups of two or more. -/
def find_duplicates (dd : Deduplicator) (emails : List DRec) :
    List (String × List (Option String)) :=
  let st := emails.foldl (fdStep dd) ⟨[], []⟩
  (st.dupOrder.filterMap (fun k => (st.processed.lookup k).map (fun ids => (k, ids)))).filter
    (fun g => 1 < g.2.length)

/-- The normalised PNR of a record in `get_unique_emails`:
`email.get('pnr', '').upper() if email.get('pnr') else None`. -/
def normPnr (e : DRec) : Option String :=
  match e.pnr with
  | some s => if s == "" then none else some (pyUpper s)
  | none => none

/-- The loop of `get_unique_emails`, threading the set of kept canonical
PNRs (membership tests are existential, so a list models the set). -/
def uniqueLoop (dd : Deduplicator) (seen : List String) : List DRec → List DRec
  | [] => []
  | e :: rest =>
    match normPnr e with
    | none => e :: uniqueLoop dd seen rest
    | some p =>
      if seen.any (fun s => are_pnrs_duplicate dd (some p) (some s)) then
        uniqueLoop dd seen rest
      else
        e :: uniqueLoop dd (p :: seen) rest

/-- `Deduplicator.get_unique_emails`: keep the first occurrence of each
fuzzy-equivalence representative; records without a PNR are always kept. -/
def get_unique_emails (dd : Deduplicator) (emails : List DRec) : List DRec :=
  uniqueLoop dd [] emails

/-! ### State manager and Phase 1 sweep
(`state/state_manager.py`, `main.py`) -/

/-- One row of the append-only `processing_state` table. -/
structure ProcEvent where
  message_id : String
  phase : String
  status : String
  error_message : Option String
deriving DecidableEq

/-- `StateManager.is_email_processed`: the existence check
`SELECT 1 ... WHERE message_id = ? AND phase = ? AND status = 'SUCCESS'`. -/
def is_email_processed (events : List ProcEvent) (m phase : String) : Bool :=
  events.any (fun ev => ev.message_id == m && ev.phase == phase && ev.status == "SUCCESS")

/-- `StateManager.mark_email_processed`: append one event row. -/
def mark_email_processed (events : List ProcEvent) (m phase status : String)
    (err : Option String) : List ProcEvent :=
  events ++ [⟨m, phase, status, err⟩]

/-- One row of the `emails` table. -/
structure EmailRec where
  message_id : String
  thread_id : Option String
  subject : String
  from_email : String
  msg_date : String
  pnr : Option String
  flight_number : Option String
  departure_airport : Option String
  arrival_airport : Option String
deriving DecidableEq

/-- `StateManager.save_email`: `INSERT OR REPLACE` keyed by message id. -/
def save_email (emails : List EmailRec) (r : EmailRec) : List EmailRec :=
  (emails.filter (fun e2 => e2.message_id != r.message_id)) ++ [r]

/-- The two tables the Phase 1 sweep touches. -/
structure DbState where
  emails : List EmailRec
  events : List ProcEvent
deriving DecidableEq

/-- The email row saved by `phase1_label_emails` for a classified flight
email: extracted fields when parsing yielded data, otherwise nulls. -/
def mkEmailRec (m : String) (ed : EmailData) (fd : Option FlightData) : EmailRec :=
  { message_id := m, thread_id := ed.thread_id, subject := ed.subject,
    from_email := ed.from_email, msg_date := ed.msg_date,
    pnr := fd.bind (fun d => d.booking_reference),
    flight_number := fd.bind (fun d => d.flight_number),
    departure_airport := fd.bind (fun d => d.departure_airport),
    arrival_airport := fd.bind (fun d => d.arrival_airport) }

/-- The body of the Phase 1 loop for a message that is not skipped:
fetch (the external Gmail call, whose failure is the caught exception
path recorded as FAILED), classify, and either save and record SUCCESS,
collecting the id into the to-label batch, or record SKIPPED. -/
def phase1Attempt (fetch : String → Except String EmailData) (db : DbState)
    (batch : List String) (m : String) : DbState × List String :=
  match fetch m with
  | .error err =>
    ({ db with events := mark_email_processed db.events m "PHASE1_LABEL" "FAILED" (some err) },
     batch)
  | .ok ed =>
    if (classify ed).1 then
      let fd := FlightParser.parse ed
      ({ emails := save_email db.emails (mkEmailRec m ed fd),
         events := mark_email_processed db.events m "PHASE1_LABEL" "SUCCESS" none },
       batch ++ [m])
    else
      ({ db with events := mark_email_processed db.events m "PHASE1_LABEL" "SKIPPED" none },
       batch)

/-- One iteration of the Phase 1 loop: skip when already processed
successfully, otherwise attempt. -/
def phase1Step (fetch : String → Except String EmailData) (st : DbState × List String)
    (m : String) : DbState × List String :=
  if is_email_processed st.1.events m "PHASE1_LABEL" then st
  else phase1Attempt fetch st.1 st.2 m

/-- The Phase 1 sweep over the candidate message ids, returning the
final database state and the to-label batch. -/
def phase1Sweep (fetch : String → Except String EmailData) (db : DbState)
    (msgs : List String) : DbState × List String :=
  msgs.foldl (phase1Step fetch) (db, [])

/-! ### Concrete sample inputs used by witnesses and counterexamples -/

/-- A Confirmed FlightReservation JSON-LD object with full flight data,
the scenario of the specification. -/
def sampleLdJson : Json :=
  .obj [("@type", .str "FlightReservation"),
        ("reservationStatus", .str "http://schema.org/ReservationConfirmed"),
        ("reservationNumber", .str "ABC123"),
        ("reservationFor", .obj [("@type", .str "Flight"), ("flightNumber", .str "UA456"),
          ("departureAirport", .obj [("iataCode", .str "SFO")]),
          ("arrivalAirport", .obj [("iataCode", .str "JFK")])])]

/-- The extraction result of `sampleLdJson`. -/
def schemaResult : FlightData :=
  { booking_reference := some "ABC123", flight_number := some "UA456",
    departure_airport := some "SFO", arrival_airport := some "JFK" }

/-- A table carrying a booking reference that conflicts with
`sampleLdJson`. -/
def conflictTable : HtmlTable := ⟨[["Booking Reference", "ZZZZZ9"]], "booking details"⟩

/-- A body holding both the structured markup and the conflicting table. -/
def conflictHtml : Html := ⟨[some sampleLdJson], none, [conflictTable], "Flight Confirmation"⟩

/-- An email whose body is `conflictHtml`. -/
def conflictEmail : EmailData :=
  ⟨"m2", none, "Your Flight", "noreply@united.com", "d", some conflictHtml, "thanks"⟩

/-- A body holding only the Confirmed structured markup. -/
def confirmedHtml : Html := ⟨[some sampleLdJson], none, [], ""⟩

/-- An email with the Confirmed markup and every other field empty. -/
def confirmedEmail : EmailData := ⟨"m1", none, "", "", "", some confirmedHtml, ""⟩

/-- A database whose only event for m1 is a FAILED labeling attempt. -/
def failedDb : DbState := ⟨[], [⟨"m1", "PHASE1_LABEL", "FAILED", some "rate limit"⟩]⟩

/-- A database whose only event for m1 is a successful labeling. -/
def successDb : DbState := ⟨[], [⟨"m1", "PHASE1_LABEL", "SUCCESS", none⟩]⟩

/-- A fetch collaborator that always raises. -/
def errFetch : String → Except String EmailData := fun _ => .error "offline"

/-- An email whose JSON-LD markup carries an empty reservation number. -/
def emptyRefEmail : EmailData :=
  ⟨"m7", none, "", "", "",
   some ⟨[some (.obj [("@type", .str "FlightReservation"), ("reservationNumber", .str "")])],
         none, [], ""⟩,
   ""⟩

/-! ## Helper lemmas -/

/-- A string built from a non-empty character list is not the empty
string. -/
theorem string_mk_ne_empty (l : List Char) (h : l ≠ []) : (⟨l⟩ : String) ≠ "" := by
  intro he
  exact h (congrArg String.data he)

/-- Uppercasing a non-empty string yields a non-empty string. -/
theorem pyUpper_ne_empty (s : String) (h : s.data ≠ []) : pyUpper s ≠ "" := by
  apply string_mk_ne_empty
  simpa using h

/-- An uppercase letter is not the space character. -/
theorem upper_ne_space {c : Char} (h : isUpperCh c = true) : (c != ' ') = true := by
  simp only [isUpperCh, Bool.and_eq_true, decide_eq_true_eq] at h
  simp only [bne_iff_ne, ne_eq]
  intro he
  subst he
  exact absurd h.1 (by decide)

/-- Removing spaces from a string headed by an uppercase letter leaves a
non-empty string. -/
theorem pyRemoveSpaces_ne_empty (c1 : Char) (rest : List Char) (h : isUpperCh c1 = true) :
    pyRemoveSpaces ⟨c1 :: rest⟩ ≠ "" := by
  apply string_mk_ne_empty
  simp [List.filter_cons, upper_ne_space h]

/-- A booking-reference capture has at least five characters. -/
theorem tryBookingRefAt_len {l : List Char} {cap : List Char}
    (h : tryBookingRefAt l = some cap) : 5 ≤ cap.length := by
  unfold tryBookingRefAt at h
  iterate 6 (all_goals try split at h)
  all_goals simp_all
  exact h.2 ▸ h.1

/-- The booking-reference search only returns captures of at least five
characters. -/
theorem scanBookingRef_len : ∀ (cs : List Char) (cap : List Char),
    scanBookingRef cs = some cap → 5 ≤ cap.length := by
  intro cs
  induction cs with
  | nil => intro cap h; simp [scanBookingRef] at h
  | cons c t ih =>
    intro cap h
    simp only [scanBookingRef] at h
    cases ht : tryBookingRefAt (c :: t) with
    | some cap2 =>
      simp only [ht] at h
      injection h with h2
      subst h2
      exact tryBookingRefAt_len ht
    | none =>
      simp only [ht] at h
      exact ih cap h

/-- A flight-number capture survives space removal, since it starts with
an uppercase letter. -/
theorem tryFlightNumAt_ne {l : List Char} {cap : List Char}
    (h : tryFlightNumAt l = some cap) : pyRemoveSpaces ⟨cap⟩ ≠ "" := by
  unfold tryFlightNumAt at h
  iterate 8 (all_goals try split at h)
  all_goals try simp_all
  all_goals (subst h; apply pyRemoveSpaces_ne_empty; simp_all)

/-- The flight-number search only returns captures that survive space
removal. -/
theorem scanFlightNum_ne : ∀ (prev : Option Char) (cs : List Char) (cap : List Char),
    scanFlightNum prev cs = some cap → pyRemoveSpaces ⟨cap⟩ ≠ "" := by
  intro prev cs
  induction cs generalizing prev with
  | nil => intro cap h; simp [scanFlightNum] at h
  | cons c t ih =>
    intro cap h
    simp only [scanFlightNum] at h
    cases ht : (if boundaryBefore prev then tryFlightNumAt (c :: t) else none) with
    | some cap2 =>
      simp only [ht] at h
      injection h with h2
      subst h2
      split at ht
      · exact tryFlightNumAt_ne ht
      · exact absurd ht (by simp)
    | none =>
      simp only [ht] at h
      exact ih (some c) cap h

/-- Both components of an airport-pair match are non-empty. -/
theorem tryAirportPairAt_ne {l : List Char} {ab : String × String}
    (h : tryAirportPairAt l = some ab) : ab.1 ≠ "" ∧ ab.2 ≠ "" := by
  unfold tryAirportPairAt at h
  iterate 8 (all_goals try split at h)
  all_goals try simp_all
  all_goals
    (subst h; constructor <;> (apply string_mk_ne_empty; simp))

/-- Both components of the airport-pair search result are non-empty. -/
theorem scanAirportPair_ne : ∀ (prev : Option Char) (cs : List Char) (ab : String × String),
    scanAirportPair prev cs = some ab → ab.1 ≠ "" ∧ ab.2 ≠ "" := by
  intro prev cs
  induction cs generalizing prev with
  | nil => intro ab h; simp [scanAirportPair] at h
  | cons c t ih =>
    intro ab h
    simp only [scanAirportPair] at h
    cases ht : (if boundaryBefore prev then tryAirportPairAt (c :: t) else none) with
    | some ab2 =>
      simp only [ht] at h
      injection h with h2
      subst h2
      split at ht
      · exact tryAirportPairAt_ne ht
      · exact absurd ht (by simp)
    | none =>
      simp only [ht] at h
      exact ih (some c) ab h

/-- Every code found by the three-letter-code scan is non-empty. -/
theorem scanCodes3_ne_empty (n : Nat) : ∀ (cs : List Char), cs.length ≤ n →
    ∀ (prev : Option Char), ∀ c ∈ scanCodes3 prev cs, c ≠ "" := by
  induction n with
  | zero =>
    intro cs hle prev c hc
    cases cs with
    | nil => simp [scanCodes3] at hc
    | cons a t => simp at hle
  | succ n ih =>
    intro cs hle prev c hc
    match cs, hle, hc with
    | [], _, hc => simp [scanCodes3] at hc
    | [a], _, hc => simp [scanCodes3] at hc
    | [a, b], _, hc => simp [scanCodes3] at hc
    | a :: b :: c3 :: t, hle, hc =>
      simp only [scanCodes3] at hc
      split at hc
      · rcases List.mem_cons.mp hc with hhd | htl
        · subst hhd; apply string_mk_ne_empty; simp
        · exact ih t (by simp at hle; omega) (some c3) c htl
      · exact ih (b :: c3 :: t) (by simp at hle; simp; omega) (some a) c hc

/-- One pass of the unique filter is a fixed point of a second pass with
the same seen set. -/
theorem uniqueLoop_idem (dd : Deduplicator) :
    ∀ (l : List DRec) (seen : List String),
      uniqueLoop dd seen (uniqueLoop dd seen l) = uniqueLoop dd seen l := by
  intro l
  induction l with
  | nil => intro seen; rfl
  | cons e rest ih =>
    intro seen
    cases hn : normPnr e with
    | none => simp [uniqueLoop, hn, ih]
    | some p =>
      by_cases hm : seen.any (fun s => are_pnrs_duplicate dd (some p) (some s)) = true
      · simp [uniqueLoop, hn, hm, ih]
      · simp [uniqueLoop, hn, hm, ih]

/-- The table loop returns the contribution of the first table that has
one. -/
theorem tablesLoop_eq_findSome : ∀ ts : List HtmlTable,
    tablesLoop ts = ts.findSome? tableData := by
  intro ts
  induction ts with
  | nil => rfl
  | cons t rest ih =>
    by_cases hk : tableHasKeyword t = true
    · by_cases hd : (tableExtract t).nonempty = true
      · simp [tablesLoop, tableData, hk, hd]
      · simp [tablesLoop, tableData, hk, hd, ih]
    · simp [tablesLoop, tableData, hk, ih]

/-- The JSON-LD branch of the classifier check agrees with the
specification reading of one script. -/
theorem ldScript_eq_spec : ∀ s : Option Json, ldScriptConfirmed s = specLdConfirmed s := by
  intro s
  cases s with
  | none => rfl
  | some j =>
    cases j with
    | str t => rfl
    | obj kvs => simp [ldScriptConfirmed, specLdConfirmed, Json.asItems, frConfirmed]
    | arr xs =>
      simp only [ldScriptConfirmed, specLdConfirmed, Json.asItems]
      induction xs with
      | nil => rfl
      | cons it rest ih =>
        simp only [List.any_cons, ih]
        congr 1
        cases it <;> rfl

/-- Scripts-level version of `ldScript_eq_spec`. -/
theorem any_ld_eq_spec (ss : List (Option Json)) :
    ss.any ldScriptConfirmed = ss.any specLdConfirmed := by
  induction ss with
  | nil => rfl
  | cons s rest ih => simp [List.any_cons, ih, ldScript_eq_spec]

/-- Markup that satisfies the specification predicate fires the
structured-markup check of the code. -/
theorem spec_markup_implies_schema : ∀ h : Html,
    spec_confirmed_markup h = true → has_flight_reservation_schema h = true := by
  intro h hm
  simp only [spec_confirmed_markup, Bool.or_eq_true] at hm
  simp only [has_flight_reservation_schema, Bool.or_eq_true]
  rcases hm with hld | hmicro
  · left; rw [any_ld_eq_spec]; exact hld
  · right
    cases hmr : h.microReservation with
    | none => rw [hmr] at hmicro; simp at hmicro
    | some m => simp [hmr]

/-! ## Claims -/

/-- Claim C1: `is_email_processed` holds exactly when some event for the
(message, phase) pair has status SUCCESS; consequently a single-message
Phase 1 sweep re-attempts a message whose events carry no SUCCESS (only
FAILED or SKIPPED), and leaves the state untouched when a SUCCESS event
exists. -/
theorem claim_C1 :
    (∀ (events : List ProcEvent) (m p : String),
      is_email_processed events m p = true ↔
        ∃ ev ∈ events, ev.message_id = m ∧ ev.phase = p ∧ ev.status = "SUCCESS") ∧
    (∀ (fetch : String → Except String EmailData) (db : DbState) (m : String),
      (∀ ev ∈ db.events, ev.message_id = m → ev.phase = "PHASE1_LABEL" → ev.status ≠ "SUCCESS") →
      phase1Sweep fetch db [m] = phase1Attempt fetch db [] m) ∧
    (∀ (fetch : String → Except String EmailData) (db : DbState) (m : String),
      (∃ ev ∈ db.events, ev.message_id = m ∧ ev.phase = "PHASE1_LABEL" ∧ ev.status = "SUCCESS") →
      phase1Sweep fetch db [m] = (db, [])) := by
  have hchar : ∀ (events : List ProcEvent) (m p : String),
      is_email_processed events m p = true ↔
        ∃ ev ∈ events, ev.message_id = m ∧ ev.phase = p ∧ ev.status = "SUCCESS" := by
    intro events m p
    simp [is_email_processed, List.any_eq_true, Bool.and_eq_true, beq_iff_eq, and_assoc]
  refine ⟨hchar, ?_, ?_⟩
  · intro fetch db m hno
    have hfalse : is_email_processed db.events m "PHASE1_LABEL" = false := by
      cases hc : is_email_processed db.events m "PHASE1_LABEL" with
      | false => rfl
      | true =>
        obtain ⟨ev, hmem, h1, h2, h3⟩ := (hchar db.events m "PHASE1_LABEL").mp hc
        exact absurd h3 (hno ev hmem h1 h2)
    simp [phase1Sweep, phase1Step, hfalse]
  · intro fetch db m hex
    have htrue : is_email_processed db.events m "PHASE1_LABEL" = true :=
      (hchar db.events m "PHASE1_LABEL").mpr hex
    simp [phase1Sweep, phase1Step, htrue]

/-- Witness for C1: a message with only a FAILED event is attempted by
the sweep, and one with a SUCCESS event leaves the sweep state
unchanged. -/
theorem claim_C1_witness :
    is_email_processed failedDb.events "m1" "PHASE1_LABEL" = false ∧
    phase1Sweep errFetch failedDb ["m1"] = phase1Attempt errFetch failedDb [] "m1" ∧
    phase1Sweep errFetch successDb ["m1"] = (successDb, []) := by
  refine ⟨by decide, ?_, ?_⟩
  · exact claim_C1.2.1 errFetch failedDb "m1" (by decide)
  · exact claim_C1.2.2 errFetch successDb "m1" (by decide)

/-- Claim C2: the cascade of `FlightParser.parse` tries structured
markup, then tables, then free-text regex, and the first strategy that
yields data supplies the entire result, with no merging. -/
theorem claim_C2 : ∀ (e : EmailData) (h : Html), e.html_content = some h →
    (∀ d, parse_schema_org h = some d → FlightParser.parse e = some d) ∧
    (parse_schema_org h = none →
      ∀ d, parse_html_table h = some d → FlightParser.parse e = some d) ∧
    (parse_schema_org h = none → parse_html_table h = none →
      FlightParser.parse e = extract_flight_info_regex (h.text ++ " " ++ e.text_content)) := by
  intro e h hh
  refine ⟨?_, ?_, ?_⟩
  · intro d hd; simp [FlightParser.parse, hh, hd]
  · intro h1 d hd; simp [FlightParser.parse, hh, h1, hd]
  · intro h1 h2; simp [FlightParser.parse, hh, h1, h2]

/-- Witness for C2: with valid structured markup and a conflicting
tabular booking reference, the parse result is the markup result
entirely. -/
theorem claim_C2_witness :
    FlightParser.parse conflictEmail = some schemaResult ∧
    parse_html_table conflictHtml = some { booking_reference := some "ZZZZZ9" } := by
  constructor
  · exact (claim_C2 conflictEmail conflictHtml rfl).1 schemaResult (by decide)
  · decide

/-- Claim C3: an email whose HTML body contains FlightReservation markup
with a status containing Confirmed, all other fields empty, classifies
as a flight with score at least 50. -/
theorem claim_C3 : ∀ (e : EmailData) (h : Html),
    e.html_content = some h → e.subject = "" → e.from_email = "" → e.text_content = "" →
    spec_confirmed_markup h = true →
    (classify e).1 = true ∧ 50 ≤ (classify e).2 := by
  intro e h hh hsub hfrom htext hm
  have hfrs := spec_markup_implies_schema h hm
  have h1 : schemaScore e = 50 := by simp [schemaScore, hh, hfrs]
  have h2 : domainScore e = 0 := by
    have hd : is_airline_domain "" = false := by decide
    simp [domainScore, hfrom, hd]
  have h3 : subjectScore e = 0 := by
    have hs : is_confirmation_subject "" = false := by decide
    simp [subjectScore, hsub, hs]
  have h4 : markerScore e = 0 := by
    have hmk : has_flight_markers " " = false := by decide
    simp [markerScore, hsub, htext, hmk]
  constructor
  · simp [classify, h1, h2, h3, h4]
  · simp [classify, h1, h2, h3, h4]

/-- Witness for C3: the Confirmed JSON-LD sample alone classifies as a
flight. -/
theorem claim_C3_witness :
    (classify confirmedEmail).1 = true ∧ 50 ≤ (classify confirmedEmail).2 :=
  claim_C3 confirmedEmail confirmedHtml rfl rfl rfl rfl (by decide)

/-- Claim C4 (amended): the structured-markup signal fires exactly when
some JSON-LD script declares a FlightReservation whose status contains
Confirmed, or a FlightReservation microdata div is present, the latter
regardless of its status. -/
theorem claim_C4 : ∀ h : Html,
    has_flight_reservation_schema h = true ↔
      ((∃ s ∈ h.ldScripts, specLdConfirmed s = true) ∨ h.microReservation.isSome = true) := by
  intro h
  simp [has_flight_reservation_schema, ldScript_eq_spec, List.any_eq_true]

/-- Counterexample for C4 as stated: a FlightReservation microdata div
whose status is Cancelled still fires the signal, though the
specification predicate rejects it. -/
theorem claim_C4_counterexample :
    has_flight_reservation_schema
        ⟨[], some ⟨none, some "http://schema.org/ReservationCancelled", none⟩, [], ""⟩ = true ∧
    spec_confirmed_markup
        ⟨[], some ⟨none, some "http://schema.org/ReservationCancelled", none⟩, [], ""⟩ = false := by
  decide

/-- Claim C5: two non-empty references equal after case normalization
are duplicates; any falsy side makes the check false. -/
theorem claim_C5 : ∀ dd : Deduplicator,
    (∀ s1 s2 : String, s1 ≠ "" → s2 ≠ "" → pyUpper s1 = pyUpper s2 →
      are_pnrs_duplicate dd (some s1) (some s2) = true) ∧
    (∀ p : Option String,
      are_pnrs_duplicate dd none p = false ∧ are_pnrs_duplicate dd p none = false ∧
      are_pnrs_duplicate dd (some "") p = false ∧ are_pnrs_duplicate dd p (some "") = false) := by
  intro dd
  constructor
  · intro s1 s2 h1 h2 hU
    simp [are_pnrs_duplicate, truthyStr, h1, h2, hU]
  · intro p
    refine ⟨?_, ?_, ?_, ?_⟩ <;> cases p <;> simp [are_pnrs_duplicate, truthyStr]

/-- Witness for C5: a case-insensitive equal pair matches and an empty
side never matches. -/
theorem claim_C5_witness :
    are_pnrs_duplicate ⟨fun _ _ => 0, 95⟩ (some "abc123") (some "ABC123") = true ∧
    are_pnrs_duplicate ⟨fun _ _ => 0, 95⟩ (some "") (some "ABC123") = false := by
  constructor
  · exact (claim_C5 ⟨fun _ _ => 0, 95⟩).1 "abc123" "ABC123" (by decide) (by decide) (by decide)
  · exact ((claim_C5 ⟨fun _ _ => 0, 95⟩).2 (some "ABC123")).2.2.1

/-- Claim C6: unique-filtering is idempotent, for every similarity
function and threshold. -/
theorem claim_C6 : ∀ (dd : Deduplicator) (xs : List DRec),
    get_unique_emails dd (get_unique_emails dd xs) = get_unique_emails dd xs := by
  intro dd xs
  exact uniqueLoop_idem dd xs []

/-- Claim C7 (amended): every field of the free-text regex strategy is
absent or non-empty; the structured strategies copy markup values
verbatim, so the full extractor can return an empty-string field exactly
when the markup itself carries one. -/
theorem claim_C7 : ∀ (text : String) (d : FlightData),
    extract_flight_info_regex text = some d →
    (∀ s, d.booking_reference = some s → s ≠ "") ∧
    (∀ s, d.flight_number = some s → s ≠ "") ∧
    (∀ s, d.departure_airport = some s → s ≠ "") ∧
    (∀ s, d.arrival_airport = some s → s ≠ "") ∧
    d.departure_time = none ∧ d.arrival_time = none := by
  intro text d h
  simp only [extract_flight_info_regex] at h
  cases hb : scanBookingRef text.data <;> simp only [hb] at h <;>
    cases hf : scanFlightNum none text.data <;> simp only [hf] at h <;>
      cases hp : scanAirportPair none text.data <;> simp only [hp] at h
  all_goals try (rcases hc : (scanCodes3 none text.data).filter (fun c => !STOP_CODES.contains c) with _ | ⟨a, _ | ⟨b, tl2⟩⟩ <;> simp only [hc] at h)
  all_goals try simp [FlightData.nonempty] at h
  all_goals
    first
    | exact Option.noConfusion h
    | (subst h;
       refine ⟨?_, ?_, ?_, ?_, rfl, rfl⟩ <;> intro s hs <;>
         first
         | exact Option.noConfusion hs
         | (injection hs with hs2; subst hs2;
            first
            | (apply pyUpper_ne_empty
               dsimp only
               intro h0
               have h5 := scanBookingRef_len _ _ hb
               rw [h0] at h5
               simp at h5)
            | exact scanFlightNum_ne _ _ _ hf
            | exact (scanAirportPair_ne _ _ _ hp).1
            | exact (scanAirportPair_ne _ _ _ hp).2
            | (have hm2 : a ∈ (scanCodes3 none text.data).filter
                   (fun c => !STOP_CODES.contains c) := by
                 rw [hc]; exact List.mem_cons_self _ _
               exact scanCodes3_ne_empty text.data.length text.data (le_refl _) none a
                 (List.mem_of_mem_filter hm2))
            | (have hm2 : b ∈ (scanCodes3 none text.data).filter
                   (fun c => !STOP_CODES.contains c) := by
                 rw [hc]; exact List.mem_cons_of_mem _ (List.mem_cons_self _ _)
               exact scanCodes3_ne_empty text.data.length text.data (le_refl _) none b
                 (List.mem_of_mem_filter hm2))))

/-- Counterexample for C7 as stated: a JSON-LD reservationNumber that is
the empty string is copied verbatim into the extraction result. -/
theorem claim_C7_counterexample :
    FlightParser.parse emptyRefEmail = some { booking_reference := some "" } := by
  decide

/-- Witness for C7: the regex strategy on a concrete text yields only
non-empty fields. -/
theorem claim_C7_witness :
    (∀ s, (schemaResult : FlightData).booking_reference = some s → s ≠ "") ∧
    (∀ s, (schemaResult : FlightData).flight_number = some s → s ≠ "") ∧
    (∀ s, (schemaResult : FlightData).departure_airport = some s → s ≠ "") ∧
    (∀ s, (schemaResult : FlightData).arrival_airport = some s → s ≠ "") ∧
    (schemaResult : FlightData).departure_time = none ∧
    (schemaResult : FlightData).arrival_time = none :=
  claim_C7 "booking: ABC123 UA456 SFO to JFK" schemaResult (by decide)

/-- Claim C8: an exclusion match voids the subject signal regardless of
a confirmation match, so the subject contributes nothing to the score. -/
theorem claim_C8 : ∀ e : EmailData, hasExclusionPattern e.subject = true →
    is_confirmation_subject e.subject = false ∧
    (classify e).2 = schemaScore e + domainScore e + markerScore e := by
  intro e hex
  have hsub : is_confirmation_subject e.subject = false := by
    simp [is_confirmation_subject, hex]
  refine ⟨hsub, ?_⟩
  simp [classify, subjectScore, hsub]

/-- Witness for C8: a subject with both a confirmation phrase and an
exclusion phrase contributes no subject points. -/
theorem claim_C8_witness :
    is_confirmation_subject
        (⟨"m3", none, "Flight Confirmation — Cancelled", "x@y.com", "", none, "b"⟩ :
          EmailData).subject = false ∧
    (classify ⟨"m3", none, "Flight Confirmation — Cancelled", "x@y.com", "", none, "b"⟩).2 =
      schemaScore ⟨"m3", none, "Flight Confirmation — Cancelled", "x@y.com", "", none, "b"⟩ +
        domainScore ⟨"m3", none, "Flight Confirmation — Cancelled", "x@y.com", "", none, "b"⟩ +
        markerScore ⟨"m3", none, "Flight Confirmation — Cancelled", "x@y.com", "", none, "b"⟩ :=
  claim_C8 ⟨"m3", none, "Flight Confirmation — Cancelled", "x@y.com", "", none, "b"⟩ (by decide)

/-- Claim C9: on the five-record scenario with references ABC123,
ABC123, XYZ789, XYZ789, DEF456 (and a similarity below threshold on the
distinct pairs), `find_duplicates` returns exactly the two groups of two
and DEF456 appears in none; in general every returned group has at least
two members. -/
theorem claim_C9 : ∀ r : String → String → Nat,
    r "XYZ789" "ABC123" < 95 → r "DEF456" "ABC123" < 95 → r "DEF456" "XYZ789" < 95 →
    (find_duplicates ⟨r, 95⟩
        [⟨some "m1", some "ABC123"⟩, ⟨some "m2", some "ABC123"⟩, ⟨some "m3", some "XYZ789"⟩,
         ⟨some "m4", some "XYZ789"⟩, ⟨some "m5", some "DEF456"⟩] =
      [("ABC123", [some "m1", some "m2"]), ("XYZ789", [some "m3", some "m4"])]) ∧
    (∀ (dd : Deduplicator) (emails : List DRec) (g : String × List (Option String)),
      g ∈ find_duplicates dd emails → 2 ≤ g.2.length) := by
  intro r h1 h2 h3
  constructor
  · have b1 : are_pnrs_duplicate ⟨r, 95⟩ (some "XYZ789") (some "ABC123") = false := by
      have e : are_pnrs_duplicate ⟨r, 95⟩ (some "XYZ789") (some "ABC123")
          = decide (95 ≤ r "XYZ789" "ABC123") := rfl
      rw [e, decide_eq_false]
      omega
    have b2 : are_pnrs_duplicate ⟨r, 95⟩ (some "DEF456") (some "ABC123") = false := by
      have e : are_pnrs_duplicate ⟨r, 95⟩ (some "DEF456") (some "ABC123")
          = decide (95 ≤ r "DEF456" "ABC123") := rfl
      rw [e, decide_eq_false]
      omega
    have b3 : are_pnrs_duplicate ⟨r, 95⟩ (some "DEF456") (some "XYZ789") = false := by
      have e : are_pnrs_duplicate ⟨r, 95⟩ (some "DEF456") (some "XYZ789")
          = decide (95 ≤ r "DEF456" "XYZ789") := rfl
      rw [e, decide_eq_false]
      omega
    have b4 : are_pnrs_duplicate ⟨r, 95⟩ (some "ABC123") (some "ABC123") = true := rfl
    have b5 : are_pnrs_duplicate ⟨r, 95⟩ (some "XYZ789") (some "XYZ789") = true := rfl
    have ep1 : pyUpper "ABC123" = "ABC123" := rfl
    have ep2 : pyUpper "XYZ789" = "XYZ789" := rfl
    have ep3 : pyUpper "DEF456" = "DEF456" := rfl
    simp [find_duplicates, fdStep, firstMatchKey, appendToKey, List.lookup, ep1, ep2, ep3,
      b1, b2, b3, b4, b5]
  · intro dd emails g hg
    simp only [find_duplicates] at hg
    have hp := (List.mem_filter.mp hg).2
    simp only [decide_eq_true_eq] at hp
    omega

/-- Witness for C9: the scenario evaluated with a concrete similarity
function. -/
theorem claim_C9_witness :
    find_duplicates ⟨fun _ _ => 0, 95⟩
        [⟨some "m1", some "ABC123"⟩, ⟨some "m2", some "ABC123"⟩, ⟨some "m3", some "XYZ789"⟩,
         ⟨some "m4", some "XYZ789"⟩, ⟨some "m5", some "DEF456"⟩] =
      [("ABC123", [some "m1", some "m2"]), ("XYZ789", [some "m3", some "m4"])] :=
  (claim_C9 (fun _ _ => 0) (by decide) (by decide) (by decide)).1

/-- Claim C10 (amended): the table loop returns the fields of the first
table that both matches a keyword and yields at least one field; a
keyword-matching table that yields nothing is skipped, not terminal. -/
theorem claim_C10 : ∀ h : Html, parse_html_table h = h.tables.findSome? tableData := by
  intro h
  exact tablesLoop_eq_findSome h.tables

/-- Counterexample for C10 as stated: the first keyword-matching table
yields nothing, yet the result comes from a later table instead of being
empty. -/
theorem claim_C10_counterexample :
    tableHasKeyword ⟨[["only one cell"]], "Flight details"⟩ = true ∧
    (tableExtract ⟨[["only one cell"]], "Flight details"⟩).nonempty = false ∧
    parse_html_table ⟨[], none, [⟨[["only one cell"]], "Flight details"⟩,
        ⟨[["Booking Reference", "ABCDE"]], "booking"⟩], ""⟩ =
      some { booking_reference := some "ABCDE" } := by
  decide

end FlightProc
